import Mathlib

/-!
Shallow embedding of the interactive skew-control subsystem of the repository
(file src/controls/skew.ts), together with models of the small collaborator
utilities it calls (vector and matrix math, origin resolution, transform
application, local-point projection and the wrapper chain).  Those
collaborators live outside src/ and are modelled from the spec, as marked in
each doc comment.

Numeric conventions.  The code computes with IEEE doubles; the embedding uses
exact rationals.  The skew state of a target is carried as the tangent of the
skew angle: the field shearX stands for Math.tan(degreesToRadians(skewX)) and
shearY for Math.tan(degreesToRadians(skewY)).  The tangent is an odd, strictly
monotone bijection on the open interval of angles (-90, 90) degrees, so a skew
angle is zero, positive or negative exactly when its tangent is, and claims
about the sign of skewX and skewY translate directly to shearX and shearY.
-/

namespace Fabric

/-- 2D point (the Point class of the library): a pair of coordinates. -/
@[ext]
structure Point where
  x : ℚ
  y : ℚ
deriving DecidableEq

/-- Modelled from the spec (vector arithmetic): createVector(from, to) of
util/misc/vectors, the vector from the first point to the second. -/
def createVector (p q : Point) : Point := ⟨q.x - p.x, q.y - p.y⟩

/-- 2x3 affine matrix in the library layout [a, b, c, d, e, f]: the columns of
the linear part are (a, b) and (c, d), the translation is (e, f). -/
@[ext]
structure TMat2D where
  a : ℚ
  b : ℚ
  c : ℚ
  d : ℚ
  e : ℚ
  f : ℚ
deriving DecidableEq

/-- The identity matrix. -/
def iMatrix : TMat2D := ⟨1, 0, 0, 1, 0, 0⟩

/-- Modelled from the spec (matrix-chain multiplication): the product of two
affine matrices, the right factor applied first. -/
def multiplyTransformMatrices (A B : TMat2D) : TMat2D :=
  ⟨A.a * B.a + A.c * B.b,
   A.b * B.a + A.d * B.b,
   A.a * B.c + A.c * B.d,
   A.b * B.c + A.d * B.d,
   A.a * B.e + A.c * B.f + A.e,
   A.b * B.e + A.d * B.f + A.f⟩

/-- Modelled from the spec: multiplyTransformMatrixChain of util/misc/matrix,
the product of a list of matrices. -/
def multiplyTransformMatrixChain (ms : List TMat2D) : TMat2D :=
  ms.foldl multiplyTransformMatrices iMatrix

/-- Apply an affine matrix to a point. -/
def transformPoint (m : TMat2D) (p : Point) : Point :=
  ⟨m.a * p.x + m.c * p.y + m.e, m.b * p.x + m.d * p.y + m.f⟩

/-- Modelled from the spec (matrix math): invertTransform of util/misc/matrix.
Degenerate matrices are disclaimed by the spec; over ℚ the division by a zero
determinant yields zero entries. -/
def invertTransform (t : TMat2D) : TMat2D :=
  let a := 1 / (t.a * t.d - t.b * t.c)
  let r : TMat2D := ⟨a * t.d, -a * t.b, -a * t.c, a * t.a, 0, 0⟩
  let p := transformPoint r ⟨t.e, t.f⟩
  ⟨r.a, r.b, r.c, r.d, -p.x, -p.y⟩

/-- Modelled from the spec (matrix-equality test): isMatrixEqual of
util/misc/matrix, exact componentwise equality (the epsilon of the spec is a
floating-point artifact; over ℚ equality is exact). -/
def isMatrixEqual (m n : TMat2D) : Bool := if m = n then true else false

/-- Modelled from the spec (change-of-basis matrix construction):
calcBaseChangeMatrix of util/misc/planeChange.  The matrix maps the first
basis onto the second: it is toMatrix composed with the inverse of fromMatrix,
where each basis pair gives the two columns of the linear part. -/
def calcBaseChangeMatrix (fromBase toBase : Point × Point) : TMat2D :=
  multiplyTransformMatrices
    ⟨toBase.1.x, toBase.1.y, toBase.2.x, toBase.2.y, 0, 0⟩
    (invertTransform ⟨fromBase.1.x, fromBase.1.y, fromBase.2.x, fromBase.2.y, 0, 0⟩)

/-- Symbolic origin token (typedefs TOriginX / TOriginY), plus the numeric
variant the adaptor produces. -/
inductive Origin where
  | left
  | top
  | center
  | right
  | bottom
  | value (v : ℚ)
deriving DecidableEq

/-- Modelled from the spec (Origin Resolution): resolveOrigin of
util/misc/resolveOrigin maps a symbolic alignment token to a numeric offset
factor in [-0.5, 0.5]: the start tokens to -0.5, center to 0, the end tokens
to 0.5.  A numeric origin lives in the normalized [0, 1] anchor range (spec
4.2) and is shifted by -0.5 into the factor range, so that 0 is the start
edge, 0.5 the center and 1 the end edge. -/
def resolveOrigin : Origin → ℚ
  | .left => -(1 / 2)
  | .top => -(1 / 2)
  | .center => 0
  | .right => 1 / 2
  | .bottom => 1 / 2
  | .value v => v - 1 / 2

/-- Logical axis (typedefs TAxis). -/
inductive TAxis where
  | x
  | y
deriving DecidableEq

/-- AXIS_KEYS counterAxis entry: the other axis. -/
def TAxis.counterAxis : TAxis → TAxis
  | .x => .y
  | .y => .x

/-- Lock-flag key (AXIS_KEYS lockSkewing entries). -/
inductive LockKey where
  | lockSkewingX
  | lockSkewingY
deriving DecidableEq

/-- AXIS_KEYS lockSkewing entry for an axis. -/
def TAxis.lockSkewingKey : TAxis → LockKey
  | .x => .lockSkewingX
  | .y => .lockSkewingY

/-- The target object being transformed.  Attributes from the spec data model:
intrinsic size, scale, shear state (tangent encoding, see the file comment),
flip flags, skew locks, and the position of the object center on the canvas.
The spec lists no rotation among the attributes relevant to this subsystem,
so targets are unrotated. -/
@[ext]
structure FabricObject where
  width : ℚ
  height : ℚ
  scaleX : ℚ
  scaleY : ℚ
  shearX : ℚ
  shearY : ℚ
  centerX : ℚ
  centerY : ℚ
  flipX : Bool
  flipY : Bool
  lockSkewingX : Bool
  lockSkewingY : Bool
deriving DecidableEq

/-- isLocked of controls/util: reads the lock flag of the target. -/
def isLocked (target : FabricObject) : LockKey → Bool
  | .lockSkewingX => target.lockSkewingX
  | .lockSkewingY => target.lockSkewingY

/-- AXIS_KEYS skew entry: the skew state of the target on an axis (tangent
encoding: shearX carries tan of skewX in radians, likewise shearY). -/
def FabricObject.shearOf (t : FabricObject) : TAxis → ℚ
  | .x => t.shearX
  | .y => t.shearY

/-- AXIS_KEYS flip entry: the flip flag of the target on an axis. -/
def FabricObject.flipOf (t : FabricObject) : TAxis → Bool
  | .x => t.flipX
  | .y => t.flipY

/-- Update the flip flag of one axis, leaving everything else unchanged. -/
def FabricObject.setFlipOf (t : FabricObject) : TAxis → Bool → FabricObject
  | .x, b => { t with flipX := b }
  | .y, b => { t with flipY := b }

/-- Modelled from the spec (Own-Matrix Computation): calcOwnMatrix derives the
local transform purely from the current target properties.  Skewing is
applied before scaling (comment above skewObject in src/controls/skew.ts):
the matrix is Translate(center) * Scale(flip applied) * ShearX * ShearY,
written out componentwise. -/
def calcOwnMatrix (t : FabricObject) : TMat2D :=
  let sX := t.scaleX * (if t.flipX then -1 else 1)
  let sY := t.scaleY * (if t.flipY then -1 else 1)
  ⟨sX * (1 + t.shearX * t.shearY), sY * t.shearY, sX * t.shearX, sY, t.centerX, t.centerY⟩

/-- Modelled from the spec (Transform Application): applyTransformToObject
decomposes a 2x3 affine matrix into the scale, skew and translation properties
of the target and commits them; the spec requires the decomposition to be
lossy-free, i.e. recomputing the own matrix afterwards reproduces the applied
matrix exactly.  Targets of this subsystem are unrotated (spec data model), so
the unique rotation-free chart M = Scale * ShearX * ShearY is used, and the
flip flags are re-expressed through the sign of the scale (which is what makes
the recomposition exact).  The translation of the matrix is the new center. -/
def applyTransformToObject (t : FabricObject) (m : TMat2D) : FabricObject :=
  let scaleY := m.d
  let shearY := m.b / m.d
  let scaleX := m.a - m.c * shearY
  let shearX := m.c / scaleX
  { t with
      scaleX := scaleX
      scaleY := scaleY
      shearX := shearX
      shearY := shearY
      flipX := false
      flipY := false
      centerX := m.e
      centerY := m.f }

/-- Local offset of a symbolic origin, in the un-scaled local frame of the
target (the frame the own matrix maps onto the canvas). -/
def originOffset (t : FabricObject) (ox oy : Origin) : Point :=
  ⟨resolveOrigin ox * t.width, resolveOrigin oy * t.height⟩

/-- Modelled from the spec: translateToOriginPoint computes the screen-space
position of the resolved anchor origin point of the target. -/
def translateToOriginPoint (t : FabricObject) (ox oy : Origin) : Point :=
  transformPoint (calcOwnMatrix t) (originOffset t ox oy)

/-- Modelled from the spec: setPositionByOrigin re-translates the target so
that the given origin point lands on the given screen position. -/
def setPositionByOrigin (t : FabricObject) (p : Point) (ox oy : Origin) : FabricObject :=
  let cur := translateToOriginPoint t ox oy
  { t with centerX := t.centerX + (p.x - cur.x), centerY := t.centerY + (p.y - cur.y) }

/-- The ephemeral transform session of a drag gesture.  It carries the target,
the session origins, the last pointer position and the inferred skewing side
(the SkewTransform intersection type of src/controls/skew.ts). -/
@[ext]
structure Transform where
  target : FabricObject
  originX : Origin
  originY : Origin
  lastX : ℚ
  lastY : ℚ
  skewingSide : ℚ
deriving DecidableEq

/-- AXIS_KEYS origin entry, read from the session (the adaptor reads
transform[counterOriginKey]). -/
def Transform.originOf (tr : Transform) : TAxis → Origin
  | .x => tr.originX
  | .y => tr.originY

/-- Write the session origin of one axis (the computed-property write
[originKey]: origin of the adaptor). -/
def Transform.setOriginOf (tr : Transform) : TAxis → Origin → Transform
  | .x, o => { tr with originX := o }
  | .y, o => { tr with originY := o }

/-- Coordinate of a point along an axis (the [axis] indexing of the code). -/
def Point.coord (p : Point) : TAxis → ℚ
  | .x => p.x
  | .y => p.y

/-- Modelled from the spec (Local-point projection): getLocalPoint of
controls/util converts a canvas coordinate into the local frame of the target
relative to a given anchor origin: the inverse own matrix is applied and the
origin offset subtracted. -/
def getLocalPoint (tr : Transform) (ox oy : Origin) (x y : ℚ) : Point :=
  let p := transformPoint (invertTransform (calcOwnMatrix tr.target)) ⟨x, y⟩
  ⟨p.x - resolveOrigin ox * tr.target.width, p.y - resolveOrigin oy * tr.target.height⟩

/-- JS Math.sign: 1 on positives, -1 on negatives, 0 at 0. -/
def mathSign (q : ℚ) : ℚ :=
  if 0 < q then 1 else if q < 0 then -1 else 0

/-- The skewing side computed by skewTransformAdaptor (src/controls/skew.ts
lines 141-150): the counter-axis session origin is resolved, negated when the
counter axis is flipped, and the side is minus its sign, negated again when
this axis is flipped. -/
def skewingSideOf (axis : TAxis) (tr : Transform) : ℚ :=
  let counterOriginFactor :=
    resolveOrigin (tr.originOf axis.counterAxis) *
      (if tr.target.flipOf axis.counterAxis then -1 else 1)
  let side := -mathSign counterOriginFactor * (if tr.target.flipOf axis then -1 else 1)
  side

/-- The direction ternary of skewTransformAdaptor (src/controls/skew.ts lines
151-158), before the multiplication by the skewing side: 1 when the target has
zero skew on the axis and the pointer sits strictly on the positive side of
the center in the local frame, or when the existing skew is strictly
positive; otherwise -1. -/
def skewDirectionBase (axis : TAxis) (tr : Transform) (x y : ℚ) : ℚ :=
  if (tr.target.shearOf axis = 0 ∧ 0 < (getLocalPoint tr .center .center x y).coord axis)
      ∨ 0 < tr.target.shearOf axis
  then 1 else -1

/-- skewTransformAdaptor of src/controls/skew.ts: decides the skew direction
and side and computes which origin anchor to pin for this axis, returning the
augmented session (the target is not touched).  The eventData parameter of the
code is unused there and dropped here. -/
def skewTransformAdaptor (axis : TAxis) (tr : Transform) (x y : ℚ) : Transform :=
  let skewingSide := skewingSideOf axis tr
  let skewingDirection := skewDirectionBase axis tr x y * skewingSide
  let origin := -skewingDirection * (1 / 2) + 1 / 2
  { tr.setOriginOf axis (Origin.value origin) with skewingSide := skewingSide }

/-- The skewed basis built inline in skewObject (src/controls/skew.ts lines
104-112): the first (x-) basis vector is (width, d.y * skewingSide * 2) for a
y-axis skew and (width, tan(skewY) * width) otherwise — in the tangent
encoding tan(skewY) is shearY; the second (y-) basis vector is
(d.x * skewingSide * 2, height) for an x-axis skew and (0, height)
otherwise. -/
def skewNewBasis (axis : TAxis) (target : FabricObject) (d : Point) (skewingSide : ℚ) :
    Point × Point :=
  (⟨target.width, if axis = .y then d.y * skewingSide * 2 else target.shearY * target.width⟩,
   ⟨if axis = .x then d.x * skewingSide * 2 else 0, target.height⟩)

/-- skewObject of src/controls/skew.ts: captures the own matrix, builds the
change-of-basis matrix from the un-skewed rectangle basis to the skewed basis,
composes it onto the own matrix, applies the result to the target, and reports
whether the own matrix actually changed.  The JS code mutates the target; the
embedding returns the new target together with the changed flag. -/
def skewObject (axis : TAxis) (tr : Transform) (x y : ℚ) : FabricObject × Bool :=
  let target := tr.target
  let ownMatrix := calcOwnMatrix target
  let d := createVector ⟨tr.lastX, tr.lastY⟩ ⟨x, y⟩
  let size : Point := ⟨target.width, target.height⟩
  let shearingChange :=
    calcBaseChangeMatrix (⟨size.x, 0⟩, ⟨0, size.y⟩) (skewNewBasis axis target d tr.skewingSide)
  let target' :=
    applyTransformToObject target (multiplyTransformMatrixChain [ownMatrix, shearingChange])
  (target', !isMatrixEqual (calcOwnMatrix target') ownMatrix)

/-- Result of a wrapped handler invocation: the (possibly) mutated target, the
boolean changed result, and the events emitted during the call. -/
@[ext]
structure SkewResult where
  target : FabricObject
  changed : Bool
  events : List String
deriving DecidableEq

/-- Modelled from the spec (Fixed-anchor correction): wrapWithFixedAnchor
captures the screen position of the anchor origin point before delegating,
lets the inner function mutate the target, then re-translates the target so
the anchor point returns to its pre-mutation screen position. -/
def wrapWithFixedAnchor (inner : Transform → ℚ → ℚ → FabricObject × Bool) :
    Transform → ℚ → ℚ → FabricObject × Bool :=
  fun tr x y =>
    let constraint := translateToOriginPoint tr.target tr.originX tr.originY
    let r := inner tr x y
    (setPositionByOrigin r.1 constraint tr.originX tr.originY, r.2)

/-- Modelled from the spec (Event-fire-on-change): wrapWithFireEvent delegates
and, exactly when the inner call reports a change, emits the named event. -/
def wrapWithFireEvent (ev : String) (inner : Transform → ℚ → ℚ → FabricObject × Bool) :
    Transform → ℚ → ℚ → SkewResult :=
  fun tr x y =>
    let r := inner tr x y
    ⟨r.1, r.2, if r.2 then [ev] else []⟩

/-- Modelled from the spec (Transform-adaptor-injection): replaces the session
with the augmented session of the adaptor before delegating. -/
def wrapWithTransformAdaptor (inner : Transform → ℚ → ℚ → SkewResult)
    (adaptor : Transform → ℚ → ℚ → Transform) : Transform → ℚ → ℚ → SkewResult :=
  fun tr x y => inner (adaptor tr x y) x y

/-- Modelled from the spec (Disable-on-lock): short-circuits to a no-op with
no change and no event when the lock flag of the target is set. -/
def wrapWithDisableAction (inner : Transform → ℚ → ℚ → SkewResult) (key : LockKey) :
    Transform → ℚ → ℚ → SkewResult :=
  fun tr x y =>
    if isLocked tr.target key then ⟨tr.target, false, []⟩ else inner tr x y

/-- createSkewHandler of src/controls/skew.ts: the wrapper chain
disable-on-lock around adaptor-injection around event-fire around fixed-anchor
around the raw geometry engine. -/
def createSkewHandler (axis : TAxis) : Transform → ℚ → ℚ → SkewResult :=
  wrapWithDisableAction
    (wrapWithTransformAdaptor
      (wrapWithFireEvent ("skewing") (wrapWithFixedAnchor (skewObject axis)))
      (skewTransformAdaptor axis))
    axis.lockSkewingKey

/-- skewHandlerX of src/controls/skew.ts. -/
def skewHandlerX : Transform → ℚ → ℚ → SkewResult := createSkewHandler .x

/-- skewHandlerY of src/controls/skew.ts. -/
def skewHandlerY : Transform → ℚ → ℚ → SkewResult := createSkewHandler .y

/-- A control handle, as far as the cursor resolver reads it: its x/y position
flags, and — modelled from the spec, since findCornerQuadrant lives outside
src/ — the rotation-aware corner quadrant the control occupies relative to the
object. -/
structure Control where
  x : ℚ
  y : ℚ
  quadrant : ℕ
deriving DecidableEq

/-- Modelled from the spec: findCornerQuadrant of controls/util computes which
corner quadrant the control occupies relative to the object; the computation
itself is outside src/, so the control model carries its result. -/
def findCornerQuadrant (fabricObject : FabricObject) (control : Control) : ℕ :=
  control.quadrant

/-- NOT_ALLOWED_CURSOR of controls/util. -/
def NOT_ALLOWED_CURSOR : String := "not-allowed"

/-- The cyclic cursor table of src/controls/skew.ts. -/
def skewMap : List String := ["ns", "nesw", "ew", "nwse"]

/-- skewCursorStyleHandler of src/controls/skew.ts: the not-allowed cursor
when the perpendicular skew lock is set, otherwise the cyclic table entry for
the corner quadrant mod 4, suffixed with -resize. -/
def skewCursorStyleHandler (control : Control) (fabricObject : FabricObject) : String :=
  if control.x ≠ 0 ∧ isLocked fabricObject .lockSkewingY then NOT_ALLOWED_CURSOR
  else if control.y ≠ 0 ∧ isLocked fabricObject .lockSkewingX then NOT_ALLOWED_CURSOR
  else
    let n := findCornerQuadrant fabricObject control % 4
    skewMap.getD n ("") ++ "-resize"

/-- The concrete scenario target of the spec: a 100 x 100 object with no skew,
no flips, unit scale and no locks, centered at (50, 50). -/
def demoTarget : FabricObject :=
  { width := 100, height := 100, scaleX := 1, scaleY := 1, shearX := 0, shearY := 0,
    centerX := 50, centerY := 50, flipX := false, flipY := false,
    lockSkewingX := false, lockSkewingY := false }

/-- The scenario session with both origins center and last pointer (50, 50). -/
def demoSessionCenter : Transform :=
  { target := demoTarget, originX := .center, originY := .center,
    lastX := 50, lastY := 50, skewingSide := 1 }

/-- The scenario session with the counter-axis origin at the left edge. -/
def demoSessionLeft : Transform :=
  { demoSessionCenter with originX := .left }

/-- The scenario session on a target flipped on the y axis. -/
def flipYSession : Transform :=
  { demoSessionLeft with target := { demoTarget with flipY := true } }

/-- A session whose target already carries a y skew (shearY = 1/2, i.e. a skew
angle of about 26.57 degrees), with the counter-axis origin of the x handler
(the session originY) at center. -/
def shearYSession : Transform :=
  { target := { demoTarget with shearY := 1 / 2 }, originX := .left, originY := .center,
    lastX := 50, lastY := 50, skewingSide := 1 }

/-- The scenario session on a target whose x skew is locked. -/
def lockedSession : Transform :=
  { demoSessionCenter with target := { demoTarget with lockSkewingX := true } }

/-! ### Helper lemmas -/

theorem mult_iMatrix_left (m : TMat2D) : multiplyTransformMatrices iMatrix m = m := by
  ext <;> simp [multiplyTransformMatrices, iMatrix]

theorem mult_iMatrix_right (m : TMat2D) : multiplyTransformMatrices m iMatrix = m := by
  ext <;> simp [multiplyTransformMatrices, iMatrix]

theorem chain_pair (m n : TMat2D) :
    multiplyTransformMatrixChain [m, n] = multiplyTransformMatrices m n := by
  simp [multiplyTransformMatrixChain, mult_iMatrix_left]

theorem createVector_self (p : Point) : createVector p p = ⟨0, 0⟩ := by
  ext <;> simp [createVector]

theorem setOriginOf_target (tr : Transform) (axis : TAxis) (o : Origin) :
    (tr.setOriginOf axis o).target = tr.target := by
  cases axis <;> rfl

theorem skewTransformAdaptor_target (axis : TAxis) (tr : Transform) (x y : ℚ) :
    (skewTransformAdaptor axis tr x y).target = tr.target := by
  cases axis <;> rfl

theorem skewTransformAdaptor_lastX (axis : TAxis) (tr : Transform) (x y : ℚ) :
    (skewTransformAdaptor axis tr x y).lastX = tr.lastX := by
  cases axis <;> rfl

theorem skewTransformAdaptor_lastY (axis : TAxis) (tr : Transform) (x y : ℚ) :
    (skewTransformAdaptor axis tr x y).lastY = tr.lastY := by
  cases axis <;> rfl

theorem skewTransformAdaptor_skewingSide (axis : TAxis) (tr : Transform) (x y : ℚ) :
    (skewTransformAdaptor axis tr x y).skewingSide = skewingSideOf axis tr := by
  cases axis <;> rfl

/-- Re-anchoring puts the origin point exactly on the requested screen
position. -/
theorem translateToOriginPoint_setPositionByOrigin (t : FabricObject) (p : Point)
    (ox oy : Origin) :
    translateToOriginPoint (setPositionByOrigin t p ox oy) ox oy = p := by
  ext <;>
    simp [setPositionByOrigin, translateToOriginPoint, transformPoint, originOffset,
      calcOwnMatrix] <;>
    ring

/-- Re-anchoring onto the current anchor position is the identity. -/
theorem setPositionByOrigin_self (t : FabricObject) (ox oy : Origin) :
    setPositionByOrigin t (translateToOriginPoint t ox oy) ox oy = t := by
  ext <;> simp [setPositionByOrigin]

/-- The committed scale and shear values of the lossy-free decomposition of
the own matrix: scale re-absorbs the flip sign, shear is recovered exactly. -/
theorem applyOwn_fields (t : FabricObject) (hsx : t.scaleX ≠ 0) (hsy : t.scaleY ≠ 0) :
    (applyTransformToObject t (calcOwnMatrix t)).scaleX
        = t.scaleX * (if t.flipX then -1 else 1) ∧
    (applyTransformToObject t (calcOwnMatrix t)).scaleY
        = t.scaleY * (if t.flipY then -1 else 1) ∧
    (applyTransformToObject t (calcOwnMatrix t)).shearX = t.shearX ∧
    (applyTransformToObject t (calcOwnMatrix t)).shearY = t.shearY := by
  have h1 : (if t.flipX then (-1 : ℚ) else 1) ≠ 0 := by split <;> norm_num
  have h2 : (if t.flipY then (-1 : ℚ) else 1) ≠ 0 := by split <;> norm_num
  have hSX : t.scaleX * (if t.flipX then (-1 : ℚ) else 1) ≠ 0 := mul_ne_zero hsx h1
  have hSY : t.scaleY * (if t.flipY then (-1 : ℚ) else 1) ≠ 0 := mul_ne_zero hsy h2
  have hty :
      t.scaleY * (if t.flipY then (-1 : ℚ) else 1) * t.shearY /
          (t.scaleY * (if t.flipY then (-1 : ℚ) else 1)) = t.shearY :=
    mul_div_cancel_left₀ _ hSY
  have hD :
      t.scaleX * (if t.flipX then (-1 : ℚ) else 1) * (1 + t.shearX * t.shearY) -
          t.scaleX * (if t.flipX then (-1 : ℚ) else 1) * t.shearX * t.shearY =
        t.scaleX * (if t.flipX then (-1 : ℚ) else 1) := by ring
  refine ⟨?_, ?_, ?_, ?_⟩ <;>
    simp only [applyTransformToObject, calcOwnMatrix, hty, hD]
  exact mul_div_cancel_left₀ _ hSX

/-- Applying the own matrix back to the target reproduces the own matrix
exactly (the lossy-free contract of the spec), for nonzero scales. -/
theorem applyOwn_matrix (t : FabricObject) (hsx : t.scaleX ≠ 0) (hsy : t.scaleY ≠ 0) :
    calcOwnMatrix (applyTransformToObject t (calcOwnMatrix t)) = calcOwnMatrix t := by
  obtain ⟨e1, e2, e3, e4⟩ := applyOwn_fields t hsx hsy
  have efx : (applyTransformToObject t (calcOwnMatrix t)).flipX = false := rfl
  have efy : (applyTransformToObject t (calcOwnMatrix t)).flipY = false := rfl
  have eex : (applyTransformToObject t (calcOwnMatrix t)).centerX = t.centerX := rfl
  have eey : (applyTransformToObject t (calcOwnMatrix t)).centerY = t.centerY := rfl
  rw [calcOwnMatrix]
  simp only [efx, efy, Bool.false_eq_true, if_false, mul_one, e1, e2, e3, e4, eex, eey]
  rw [calcOwnMatrix]

/-- On an unflipped target with nonzero scales, applying its own matrix back
is the identity on every property. -/
theorem applyOwn_id (t : FabricObject) (hfx : t.flipX = false) (hfy : t.flipY = false)
    (hsx : t.scaleX ≠ 0) (hsy : t.scaleY ≠ 0) :
    applyTransformToObject t (calcOwnMatrix t) = t := by
  obtain ⟨e1, e2, e3, e4⟩ := applyOwn_fields t hsx hsy
  ext
  · rfl
  · rfl
  · rw [e1, hfx]; simp
  · rw [e2, hfy]; simp
  · exact e3
  · exact e4
  · rfl
  · rfl
  · rw [hfx]; rfl
  · rw [hfy]; rfl
  · rfl
  · rfl

/-- A zero drag delta makes the skewed basis coincide with the un-skewed
rectangle basis (the counter-shear term vanishes on the x axis only when the
target has no y shear). -/
theorem skewNewBasis_zero_delta (axis : TAxis) (t : FabricObject) (s : ℚ)
    (hsh : axis = .x → t.shearY = 0) :
    skewNewBasis axis t ⟨0, 0⟩ s = (⟨t.width, 0⟩, ⟨0, t.height⟩) := by
  cases axis
  · have h := hsh rfl
    simp [skewNewBasis, h]
  · simp [skewNewBasis]

/-- A zero skewing side wipes out the drag term of the skewed basis (likewise
needing a vanished counter-shear on the x axis). -/
theorem skewNewBasis_zero_side (axis : TAxis) (t : FabricObject) (d : Point)
    (hsh : axis = .x → t.shearY = 0) :
    skewNewBasis axis t d 0 = (⟨t.width, 0⟩, ⟨0, t.height⟩) := by
  cases axis
  · have h := hsh rfl
    simp [skewNewBasis, h]
  · simp [skewNewBasis]

/-- The change of basis from a nondegenerate rectangle basis to itself is the
identity matrix. -/
theorem calcBaseChangeMatrix_self (w h : ℚ) (hw : w ≠ 0) (hh : h ≠ 0) :
    calcBaseChangeMatrix (⟨w, 0⟩, ⟨0, h⟩) (⟨w, 0⟩, ⟨0, h⟩) = iMatrix := by
  ext <;>
    simp [calcBaseChangeMatrix, invertTransform, multiplyTransformMatrices, transformPoint,
      iMatrix] <;>
    field_simp <;>
    ring

/-- When the skewed basis built by skewObject degenerates to the un-skewed
rectangle basis, the geometry engine applies the unchanged own matrix back to
the target and reports no change. -/
theorem skewObject_noop_core (axis : TAxis) (tr : Transform) (x y : ℚ)
    (hb : skewNewBasis axis tr.target (createVector ⟨tr.lastX, tr.lastY⟩ ⟨x, y⟩) tr.skewingSide
        = (⟨tr.target.width, 0⟩, ⟨0, tr.target.height⟩))
    (hw : tr.target.width ≠ 0) (hh : tr.target.height ≠ 0)
    (hsx : tr.target.scaleX ≠ 0) (hsy : tr.target.scaleY ≠ 0) :
    skewObject axis tr x y
      = (applyTransformToObject tr.target (calcOwnMatrix tr.target), false) := by
  have hchange : calcBaseChangeMatrix (⟨tr.target.width, 0⟩, ⟨0, tr.target.height⟩)
      (skewNewBasis axis tr.target (createVector ⟨tr.lastX, tr.lastY⟩ ⟨x, y⟩) tr.skewingSide)
      = iMatrix := by
    rw [hb]
    exact calcBaseChangeMatrix_self _ _ hw hh
  unfold skewObject
  simp only [hchange, chain_pair, mult_iMatrix_right, applyOwn_matrix tr.target hsx hsy,
    isMatrixEqual, if_pos, Bool.not_true]

/-! ### Claim theorems -/

/-- Claim C2, counterexample.  The claim states that for a y-axis skew the
y-basis vector gains the drag term d.y * skewingSide * 2 in its x-component.
In the code it is the x-basis vector that gains the drag term (in its
y-component), while the x-component of the y-basis vector is 0: at the
concrete input d = (0, 20), skewingSide = 1 the claimed component is 0 and
not d.y * skewingSide * 2 = 40. -/
theorem skewNewBasis_y_claim_cex :
    ¬((skewNewBasis .y demoTarget ⟨0, 20⟩ 1).2.x = (Point.mk 0 20).y * 1 * 2) := by
  norm_num [skewNewBasis, demoTarget]

/-- Claim C2, amended.  For a y-axis skew the basis pair built by skewObject is
((width, d.y * skewingSide * 2), (0, height)): the drag term sits in the
y-component of the x-basis vector and the y-basis vector is unchanged.  For an
x-axis skew it is ((width, tan(skewY) * width), (d.x * skewingSide * 2,
height)): the held counter-shear tan(skewY) * width (shearY * width in the
tangent encoding) appears in the x-basis vector when computing an x-axis skew,
and the drag term sits in the x-component of the y-basis vector. -/
theorem skewNewBasis_spec (t : FabricObject) (d : Point) (s : ℚ) :
    skewNewBasis .y t d s = (⟨t.width, d.y * s * 2⟩, ⟨0, t.height⟩) ∧
    skewNewBasis .x t d s = (⟨t.width, t.shearY * t.width⟩, ⟨d.x * s * 2, t.height⟩) := by
  constructor <;> rfl

/-- Claim C3.  After a skew handler completes, the screen-space position of
the resolved anchor origin point (the session origins as augmented by the
transform adaptor) is exactly the position it had before the call, for every
axis, session and pointer input. -/
theorem skewHandler_anchor_invariant (axis : TAxis) (tr : Transform) (x y : ℚ) :
    translateToOriginPoint (createSkewHandler axis tr x y).target
        (skewTransformAdaptor axis tr x y).originX (skewTransformAdaptor axis tr x y).originY =
      translateToOriginPoint tr.target
        (skewTransformAdaptor axis tr x y).originX (skewTransformAdaptor axis tr x y).originY := by
  unfold createSkewHandler wrapWithDisableAction
  by_cases h : isLocked tr.target axis.lockSkewingKey
  · simp [h]
  · simp only [h, Bool.false_eq_true, if_false, wrapWithTransformAdaptor, wrapWithFireEvent,
      wrapWithFixedAnchor, translateToOriginPoint_setPositionByOrigin,
      skewTransformAdaptor_target]

/-- Claim C5.  When the skew lock of the handled axis is set on the target,
the handler returns false, emits no event and leaves the target untouched,
for any pointer input (x axis with lockSkewingX, y axis with lockSkewingY). -/
theorem locked_skew_noop (axis : TAxis) (tr : Transform) (x y : ℚ)
    (h : isLocked tr.target axis.lockSkewingKey = true) :
    createSkewHandler axis tr x y = ⟨tr.target, false, []⟩ := by
  simp [createSkewHandler, wrapWithDisableAction, h]

/-- Witness for C5 at a concrete locked session. -/
theorem locked_skew_noop_witness :
    createSkewHandler .x lockedSession 60 70 = ⟨lockedSession.target, false, []⟩ :=
  locked_skew_noop .x lockedSession 60 70 rfl

/-- Claim C6.  A skew handler never changes the intrinsic width and height of
the target, for every axis, starting state and pointer delta. -/
theorem skewHandler_preserves_size (axis : TAxis) (tr : Transform) (x y : ℚ) :
    (createSkewHandler axis tr x y).target.width = tr.target.width ∧
    (createSkewHandler axis tr x y).target.height = tr.target.height := by
  unfold createSkewHandler wrapWithDisableAction wrapWithTransformAdaptor wrapWithFireEvent
    wrapWithFixedAnchor
  by_cases h : isLocked tr.target axis.lockSkewingKey
  · simp [h]
  · simp [h, setPositionByOrigin, skewObject, applyTransformToObject,
      skewTransformAdaptor_target]

/-- Claim C7, counterexample.  The claim states that with zero skew and a
pointer local offset of exactly zero the direction ternary resolves to +1; the
comparison in the code is a strict greater-than, so the zero offset falls to
the else branch and the ternary resolves to -1.  Concretely: the scenario
session has zero y skew, pointer (50, 50) projects to local offset 0 along y,
and the ternary yields -1, not 1. -/
theorem skewDirectionBase_tie_cex :
    demoSessionCenter.target.shearY = 0 ∧
    (getLocalPoint demoSessionCenter .center .center 50 50).coord .y = 0 ∧
    skewDirectionBase .y demoSessionCenter 50 50 = -1 ∧
    skewDirectionBase .y demoSessionCenter 50 50 ≠ 1 := by
  norm_num [demoSessionCenter, demoTarget, skewDirectionBase, getLocalPoint, invertTransform,
    calcOwnMatrix, transformPoint, resolveOrigin, Point.coord, FabricObject.shearOf]

/-- Claim C7, amended.  When the skew of the active axis is exactly zero and
the local pointer offset along that axis is exactly zero, the strict
greater-than comparison fails on both disjuncts and the direction ternary
resolves to the negative branch, -1 (before the multiplication by
skewingSide). -/
theorem skewDirectionBase_tie_negative (axis : TAxis) (tr : Transform) (x y : ℚ)
    (h1 : tr.target.shearOf axis = 0)
    (h2 : (getLocalPoint tr .center .center x y).coord axis = 0) :
    skewDirectionBase axis tr x y = -1 := by
  simp [skewDirectionBase, h1, h2]

/-- Witness for C7 at a concrete session with zero skew and zero offset. -/
theorem skewDirectionBase_tie_negative_witness :
    skewDirectionBase .x demoSessionCenter 50 50 = -1 :=
  skewDirectionBase_tie_negative .x demoSessionCenter 50 50
    (by norm_num [demoSessionCenter, demoTarget, FabricObject.shearOf])
    (by norm_num [demoSessionCenter, demoTarget, getLocalPoint, invertTransform, calcOwnMatrix,
      transformPoint, resolveOrigin, Point.coord])

/-- Claim C8.  For a fixed counter-axis origin and pointer input, the skewing
side computed for a target flipped on the active axis is the negation of the
side computed for the identical target not flipped on that axis, following
skewingSide = -sign(counterOriginFactor) * (flipped : -1, else 1). -/
theorem skewingSide_flip_negation (axis : TAxis) (tr : Transform) :
    skewingSideOf axis { tr with target := tr.target.setFlipOf axis true } =
      -skewingSideOf axis { tr with target := tr.target.setFlipOf axis false } := by
  cases axis <;>
    simp [skewingSideOf, FabricObject.setFlipOf, FabricObject.flipOf, TAxis.counterAxis,
      Transform.originOf]

/-- Claim C9.  The cursor resolver returns the not-allowed cursor whenever the
control has a nonzero x position and the y skew is locked, or a nonzero y
position and the x skew is locked; otherwise it returns the entry of the
cyclic table [ns, nesw, ew, nwse] at the corner quadrant mod 4, suffixed with
-resize.  The resolver is a pure function of these inputs, and advancing the
quadrant by one advances the table index by exactly one (mod 4). -/
theorem skewCursorStyleHandler_spec (c : Control) (t : FabricObject) :
    (skewCursorStyleHandler c t =
      if (c.x ≠ 0 ∧ isLocked t .lockSkewingY = true) ∨ (c.y ≠ 0 ∧ isLocked t .lockSkewingX = true)
      then NOT_ALLOWED_CURSOR
      else skewMap.getD (findCornerQuadrant t c % 4) ("") ++ "-resize") ∧
    (skewCursorStyleHandler { c with quadrant := c.quadrant + 1 } t =
      if (c.x ≠ 0 ∧ isLocked t .lockSkewingY = true) ∨ (c.y ≠ 0 ∧ isLocked t .lockSkewingX = true)
      then NOT_ALLOWED_CURSOR
      else skewMap.getD ((findCornerQuadrant t c % 4 + 1) % 4) ("") ++ "-resize") := by
  constructor <;>
    · by_cases hx : c.x = 0 <;> by_cases hy : c.y = 0 <;>
        by_cases hlx : isLocked t .lockSkewingX = true <;>
        by_cases hly : isLocked t .lockSkewingY = true <;>
        simp [skewCursorStyleHandler, findCornerQuadrant, hx, hy, hlx, hly]

/-- Claim C1, counterexample.  With the scenario target (100 x 100, no skew,
no flips) and a session whose origins are both center, the drag from (50, 50)
to (50, 70) on the y-axis handler does NOT return true and does not produce a
positive skew: the counter-axis origin center resolves to the factor 0, so
skewingSide = -sign(0) = 0, the drag term vanishes, the handler returns false
and skewY stays 0 (shearY = tan of skewY stays 0). -/
theorem skewHandlerY_center_origin_cex :
    demoSessionCenter.originX = Origin.center ∧ demoSessionCenter.originY = Origin.center ∧
    (skewHandlerY demoSessionCenter 50 70).changed = false ∧
    (skewHandlerY demoSessionCenter 50 70).target.shearY = 0 := by
  norm_num [skewHandlerY, createSkewHandler, wrapWithDisableAction, wrapWithTransformAdaptor,
    wrapWithFireEvent, wrapWithFixedAnchor, skewObject, skewTransformAdaptor, skewingSideOf,
    skewDirectionBase, getLocalPoint, calcOwnMatrix, invertTransform, transformPoint,
    calcBaseChangeMatrix, multiplyTransformMatrices, multiplyTransformMatrixChain, iMatrix,
    isMatrixEqual, applyTransformToObject, setPositionByOrigin, translateToOriginPoint,
    originOffset, resolveOrigin, mathSign, skewNewBasis, createVector, isLocked,
    TAxis.lockSkewingKey, TAxis.counterAxis, Transform.originOf, Transform.setOriginOf,
    FabricObject.flipOf, FabricObject.shearOf, Point.coord, demoSessionCenter, demoTarget]

/-- Claim C1, amended.  Same scenario but with a session whose counter-axis
origin (the session originX) is the left edge instead of center: the y-axis
handler with lastX = lastY = 50 and pointer (50, 70) returns true, sets skewY
to a positive non-zero angle (shearY = 2/5, a skew angle of about 21.8
degrees), leaves skewX equal to 0 and width and height equal to 100, and
fires the skewing event. -/
theorem skewHandlerY_left_origin_drag :
    (skewHandlerY demoSessionLeft 50 70).changed = true ∧
    0 < (skewHandlerY demoSessionLeft 50 70).target.shearY ∧
    (skewHandlerY demoSessionLeft 50 70).target.shearX = 0 ∧
    (skewHandlerY demoSessionLeft 50 70).target.width = 100 ∧
    (skewHandlerY demoSessionLeft 50 70).target.height = 100 ∧
    (skewHandlerY demoSessionLeft 50 70).events = ["skewing"] := by
  norm_num [skewHandlerY, createSkewHandler, wrapWithDisableAction, wrapWithTransformAdaptor,
    wrapWithFireEvent, wrapWithFixedAnchor, skewObject, skewTransformAdaptor, skewingSideOf,
    skewDirectionBase, getLocalPoint, calcOwnMatrix, invertTransform, transformPoint,
    calcBaseChangeMatrix, multiplyTransformMatrices, multiplyTransformMatrixChain, iMatrix,
    isMatrixEqual, applyTransformToObject, setPositionByOrigin, translateToOriginPoint,
    originOffset, resolveOrigin, mathSign, skewNewBasis, createVector, isLocked,
    TAxis.lockSkewingKey, TAxis.counterAxis, Transform.originOf, Transform.setOriginOf,
    FabricObject.flipOf, FabricObject.shearOf, Point.coord, demoSessionLeft, demoSessionCenter,
    demoTarget]

/-- Claim C4, counterexample.  A zero drag delta returns false and fires no
event, but it does NOT leave every target property unchanged: on a target
flipped on the y axis, the lossy-free decomposition re-expresses the flip
through the sign of the scale, so the flip flag is cleared and scaleY changes
from 1 to -1 while the own matrix (and hence the returned boolean) is
unchanged. -/
theorem skewHandlerY_zero_delta_flip_cex :
    (skewHandlerY flipYSession 50 50).changed = false ∧
    (skewHandlerY flipYSession 50 50).events = [] ∧
    flipYSession.target.flipY = true ∧
    (skewHandlerY flipYSession 50 50).target.flipY = false ∧
    (skewHandlerY flipYSession 50 50).target.scaleY = -1 ∧
    flipYSession.target.scaleY = 1 := by
  norm_num [skewHandlerY, createSkewHandler, wrapWithDisableAction, wrapWithTransformAdaptor,
    wrapWithFireEvent, wrapWithFixedAnchor, skewObject, skewTransformAdaptor, skewingSideOf,
    skewDirectionBase, getLocalPoint, calcOwnMatrix, invertTransform, transformPoint,
    calcBaseChangeMatrix, multiplyTransformMatrices, multiplyTransformMatrixChain, iMatrix,
    isMatrixEqual, applyTransformToObject, setPositionByOrigin, translateToOriginPoint,
    originOffset, resolveOrigin, mathSign, skewNewBasis, createVector, isLocked,
    TAxis.lockSkewingKey, TAxis.counterAxis, Transform.originOf, Transform.setOriginOf,
    FabricObject.flipOf, FabricObject.shearOf, Point.coord, flipYSession, demoSessionLeft,
    demoSessionCenter, demoTarget]

/-- Claim C4, amended.  For every axis and session whose pointer equals the
last position (zero drag delta), the handler returns false, emits no skewing
event, and leaves every target property unchanged, provided the target is in
canonical decomposed form (no flips), has nondegenerate size and scale, and,
for the x-axis handler, carries no y shear (the counter-shear term of the
basis is otherwise re-applied on top of the own matrix). -/
theorem zero_delta_noop (axis : TAxis) (tr : Transform) (x y : ℚ)
    (hx : x = tr.lastX) (hy : y = tr.lastY)
    (hfx : tr.target.flipX = false) (hfy : tr.target.flipY = false)
    (hw : tr.target.width ≠ 0) (hh : tr.target.height ≠ 0)
    (hsx : tr.target.scaleX ≠ 0) (hsy : tr.target.scaleY ≠ 0)
    (hsh : axis = TAxis.x → tr.target.shearY = 0) :
    createSkewHandler axis tr x y = ⟨tr.target, false, []⟩ := by
  subst hx
  subst hy
  by_cases hl : isLocked tr.target axis.lockSkewingKey
  · simp [createSkewHandler, wrapWithDisableAction, hl]
  · have ht := skewTransformAdaptor_target axis tr tr.lastX tr.lastY
    have hlx := skewTransformAdaptor_lastX axis tr tr.lastX tr.lastY
    have hly := skewTransformAdaptor_lastY axis tr tr.lastX tr.lastY
    have hb2 : skewNewBasis axis (skewTransformAdaptor axis tr tr.lastX tr.lastY).target
        (createVector ⟨(skewTransformAdaptor axis tr tr.lastX tr.lastY).lastX,
            (skewTransformAdaptor axis tr tr.lastX tr.lastY).lastY⟩ ⟨tr.lastX, tr.lastY⟩)
        (skewTransformAdaptor axis tr tr.lastX tr.lastY).skewingSide
        = (⟨(skewTransformAdaptor axis tr tr.lastX tr.lastY).target.width, 0⟩,
            ⟨0, (skewTransformAdaptor axis tr tr.lastX tr.lastY).target.height⟩) := by
      rw [ht, hlx, hly, createVector_self]
      exact skewNewBasis_zero_delta axis tr.target _ hsh
    have hcore := skewObject_noop_core axis (skewTransformAdaptor axis tr tr.lastX tr.lastY)
      tr.lastX tr.lastY hb2 (by rw [ht]; exact hw) (by rw [ht]; exact hh)
      (by rw [ht]; exact hsx) (by rw [ht]; exact hsy)
    rw [ht] at hcore
    simp only [createSkewHandler, wrapWithDisableAction, hl, Bool.false_eq_true, if_false,
      wrapWithTransformAdaptor, wrapWithFireEvent, wrapWithFixedAnchor, hcore]
    rw [applyOwn_id tr.target hfx hfy hsx hsy, ht, setPositionByOrigin_self]

/-- Witness for C4 at the concrete scenario session (left counter origin,
pointer equal to last position). -/
theorem zero_delta_noop_witness :
    createSkewHandler .y demoSessionLeft 50 50 = ⟨demoSessionLeft.target, false, []⟩ :=
  zero_delta_noop .y demoSessionLeft 50 50 rfl rfl rfl rfl
    (by norm_num [demoSessionLeft, demoSessionCenter, demoTarget])
    (by norm_num [demoSessionLeft, demoSessionCenter, demoTarget])
    (by norm_num [demoSessionLeft, demoSessionCenter, demoTarget])
    (by norm_num [demoSessionLeft, demoSessionCenter, demoTarget])
    nofun

/-- Claim C10, counterexample.  With the counter-axis origin resolving to the
factor 0 the skewing side is indeed -sign(0) = 0 and the drag term vanishes,
but for the x-axis handler the change-of-basis matrix also carries the held
counter-shear tan(skewY) * width, so on a target that already has a y shear
the composed matrix does NOT equal the captured own matrix: the handler
returns true and the y shear doubles from 1/2 to 1. -/
theorem skewHandlerX_held_shear_cex :
    resolveOrigin (shearYSession.originOf TAxis.x.counterAxis) = 0 ∧
    skewingSideOf .x shearYSession = 0 ∧
    (skewHandlerX shearYSession 60 50).changed = true ∧
    (skewHandlerX shearYSession 60 50).target.shearY = 1 ∧
    shearYSession.target.shearY = 1 / 2 := by
  norm_num [skewHandlerX, createSkewHandler, wrapWithDisableAction, wrapWithTransformAdaptor,
    wrapWithFireEvent, wrapWithFixedAnchor, skewObject, skewTransformAdaptor, skewingSideOf,
    skewDirectionBase, getLocalPoint, calcOwnMatrix, invertTransform, transformPoint,
    calcBaseChangeMatrix, multiplyTransformMatrices, multiplyTransformMatrixChain, iMatrix,
    isMatrixEqual, applyTransformToObject, setPositionByOrigin, translateToOriginPoint,
    originOffset, resolveOrigin, mathSign, skewNewBasis, createVector, isLocked,
    TAxis.lockSkewingKey, TAxis.counterAxis, Transform.originOf, Transform.setOriginOf,
    FabricObject.flipOf, FabricObject.shearOf, Point.coord, shearYSession, demoTarget]
  have hne : TAxis.x ≠ TAxis.y := nofun
  refine ⟨hne, ?_⟩
  rw [if_neg hne]
  norm_num

/-- Claim C10, amended.  When the counter-axis session origin resolves to the
numeric factor 0, the adaptor computes skewingSide = -sign(0) = 0, and — for a
target with nondegenerate size and scale that carries no y shear when the
axis is x — the shear terms of the change-of-basis matrix vanish, the
composed matrix equals the captured own matrix, and the handler returns false
without changing the skew of the target and without firing an event. -/
theorem center_counter_origin_noop (axis : TAxis) (tr : Transform) (x y : ℚ)
    (h0 : resolveOrigin (tr.originOf axis.counterAxis) = 0)
    (hw : tr.target.width ≠ 0) (hh : tr.target.height ≠ 0)
    (hsx : tr.target.scaleX ≠ 0) (hsy : tr.target.scaleY ≠ 0)
    (hsh : axis = TAxis.x → tr.target.shearY = 0) :
    skewingSideOf axis tr = 0 ∧
    (createSkewHandler axis tr x y).changed = false ∧
    (createSkewHandler axis tr x y).events = [] ∧
    (createSkewHandler axis tr x y).target.shearX = tr.target.shearX ∧
    (createSkewHandler axis tr x y).target.shearY = tr.target.shearY := by
  have hside : skewingSideOf axis tr = 0 := by
    simp [skewingSideOf, h0, mathSign]
  by_cases hl : isLocked tr.target axis.lockSkewingKey
  · refine ⟨hside, ?_, ?_, ?_, ?_⟩ <;>
      simp [createSkewHandler, wrapWithDisableAction, hl]
  · have ht := skewTransformAdaptor_target axis tr x y
    have hs2 := skewTransformAdaptor_skewingSide axis tr x y
    have hb2 : skewNewBasis axis (skewTransformAdaptor axis tr x y).target
        (createVector ⟨(skewTransformAdaptor axis tr x y).lastX,
            (skewTransformAdaptor axis tr x y).lastY⟩ ⟨x, y⟩)
        (skewTransformAdaptor axis tr x y).skewingSide
        = (⟨(skewTransformAdaptor axis tr x y).target.width, 0⟩,
            ⟨0, (skewTransformAdaptor axis tr x y).target.height⟩) := by
      rw [ht, hs2, hside]
      exact skewNewBasis_zero_side axis tr.target _ hsh
    have hcore := skewObject_noop_core axis (skewTransformAdaptor axis tr x y) x y hb2
      (by rw [ht]; exact hw) (by rw [ht]; exact hh)
      (by rw [ht]; exact hsx) (by rw [ht]; exact hsy)
    rw [ht] at hcore
    obtain ⟨o1, o2, o3, o4⟩ := applyOwn_fields tr.target hsx hsy
    refine ⟨hside, ?_, ?_, ?_, ?_⟩ <;>
      simp only [createSkewHandler, wrapWithDisableAction, hl, Bool.false_eq_true, if_false,
        wrapWithTransformAdaptor, wrapWithFireEvent, wrapWithFixedAnchor, hcore,
        setPositionByOrigin, o3, o4]

/-- Witness for C10 at the concrete scenario session with center origins. -/
theorem center_counter_origin_noop_witness :
    skewingSideOf .y demoSessionCenter = 0 ∧
    (createSkewHandler .y demoSessionCenter 50 70).changed = false ∧
    (createSkewHandler .y demoSessionCenter 50 70).events = [] ∧
    (createSkewHandler .y demoSessionCenter 50 70).target.shearX
        = demoSessionCenter.target.shearX ∧
    (createSkewHandler .y demoSessionCenter 50 70).target.shearY
        = demoSessionCenter.target.shearY :=
  center_counter_origin_noop .y demoSessionCenter 50 70 rfl
    (by norm_num [demoSessionCenter, demoTarget])
    (by norm_num [demoSessionCenter, demoTarget])
    (by norm_num [demoSessionCenter, demoTarget])
    (by norm_num [demoSessionCenter, demoTarget])
    nofun

end Fabric
